import Mathlib

/-
Verification of the liveslides repository: a shallow embedding of the
client-side slide synchronisation logic of components/LiveSlides.tsx and
of the room page resolver, together with proofs of the specified
behavioural properties.

Modelling conventions:
- Slide indices travel over the wire as JavaScript numbers; every index
  produced by this code is an integer, so numbers are embedded as Int.
- React state owned by a mounted LiveSlides instance is a ClientState
  record.  The broadcast handler installed by the channel useEffect closes
  over the liveFollow value of the render in which the effect ran; since
  the dependency array is [roomId, isPresenter, userKey], the captured
  value is not refreshed when liveFollow changes.  The captured value is
  therefore carried in the state as a separate field capturedLiveFollow.
- Channel sends (broadcast, presence track) are pure outputs collected in
  a list; send failures are swallowed by the source and do not affect
  state, so they need no representation.
-/

namespace LiveSlides

/-- A presence record as tracked on the channel: a role string and the
index field; the index is none when the tracked field is not a number
(the source tests typeof p.index with a default of 0). -/
structure PresenceRecord where
  role : String
  index : Option Int
  deriving DecidableEq, Repr

/-- The index field of an incoming slide broadcast payload, as consumed by
Number(payload.payload?.index ?? 0): the field can be absent (undefined or
null, caught by the nullish coalescing and replaced by 0), a numeric
value, or a value whose numeric conversion is NaN. -/
inductive PayloadIndex where
  | missing : PayloadIndex
  | numeric : Int → PayloadIndex
  | nonNumeric : PayloadIndex
  deriving DecidableEq, Repr

/-- Result of Number(payload.payload?.index ?? 0): none models NaN. -/
def PayloadIndex.toNumber : PayloadIndex → Option Int
  | .missing => some 0
  | .numeric n => some n
  | .nonNumeric => none

/-- The React state of one mounted LiveSlides instance, together with the
props and the channel handle that determine its behaviour. -/
structure ClientState where
  index : Int
  liveFollow : Bool
  /-- The liveFollow value captured by the closure of the channel
  useEffect; stale with respect to liveFollow because the dependency
  array omits it. -/
  capturedLiveFollow : Bool
  isPresenter : Bool
  /-- Whether channelRef.current is non-null. -/
  hasChannel : Bool
  deriving DecidableEq, Repr

/-- A visible effect on the realtime channel. -/
inductive Output where
  | broadcastSlide : Int → Output
  | trackPresence : String → Int → Output
  deriving DecidableEq, Repr

/-- bound from the source:
Math.max(0, Math.min(slides.length - 1, i)). -/
def bound (slidesLen : Nat) (i : Int) : Int :=
  max 0 (min ((slidesLen : Int) - 1) i)

/-- The role string tracked in presence records. -/
def roleString (isPresenter : Bool) : String :=
  if isPresenter then "presenter" else "viewer"

/-- The broadcast "slide" handler: return early when the captured
liveFollow is false, otherwise convert the payload index and, unless the
conversion is NaN, set the index to its bounded value. -/
def onSlideBroadcast (slidesLen : Nat) (s : ClientState) (p : PayloadIndex) :
    ClientState :=
  if !s.capturedLiveFollow then s
  else
    match p.toNumber with
    | none => s
    | some n => { s with index := bound slidesLen n }

/-- Math.max over a list of numbers, used by the source only on
non-empty argument lists (it is guarded by presenters.length > 0); the
empty case is never reached there. -/
def maxList : List Int → Int
  | [] => 0
  | x :: xs => xs.foldl max x

/-- The index the presence "sync" handler computes from the presence
state: filter the flattened records to those whose role is "presenter";
when any remain, take Math.max over their index fields (a non-numeric
field counts as 0), otherwise 0. -/
def presenceTarget (records : List PresenceRecord) : Int :=
  let presenters := records.filter (fun p => p.role == "presenter")
  if 0 < presenters.length then
    maxList (presenters.map (fun p => p.index.getD 0))
  else 0

/-- The presence "sync" handler: a presenter returns immediately; a
non-presenter sets its index to the bounded presence target. -/
def onPresenceSync (slidesLen : Nat) (s : ClientState)
    (records : List PresenceRecord) : ClientState :=
  if s.isPresenter then s
  else { s with index := bound slidesLen (presenceTarget records) }

/-- go from the source: setIndex(bound(i)). -/
def goAction (slidesLen : Nat) (s : ClientState) (i : Int) : ClientState :=
  { s with index := bound slidesLen i }

/-- broadcast from the source: send a slide broadcast unless the channel
handle is null. -/
def broadcastOut (s : ClientState) (i : Int) : List Output :=
  if s.hasChannel then [Output.broadcastSlide i] else []

/-- next from the source: set the index to bound(index + 1) and, when
presenter, broadcast the new index. -/
def nextAction (slidesLen : Nat) (s : ClientState) : ClientState × List Output :=
  let i := bound slidesLen (s.index + 1)
  ({ s with index := i }, if s.isPresenter then broadcastOut s i else [])

/-- prev from the source: set the index to bound(index - 1) and, when
presenter, broadcast the new index. -/
def prevAction (slidesLen : Nat) (s : ClientState) : ClientState × List Output :=
  let i := bound slidesLen (s.index - 1)
  ({ s with index := i }, if s.isPresenter then broadcastOut s i else [])

/-- reSync from the source: set liveFollow to true, then (unless the
channel handle is null) re-track the own presence record with the current
role and index.  The index is not touched. -/
def reSync (s : ClientState) : ClientState × List Output :=
  let s1 : ClientState := { s with liveFollow := true }
  (s1,
    if s.hasChannel then [Output.trackPresence (roleString s.isPresenter) s.index]
    else [])

/-- The follow-live checkbox: setLiveFollow(e.target.checked).  The
captured value inside the channel closure is unchanged. -/
def setFollow (s : ClientState) (b : Bool) : ClientState :=
  { s with liveFollow := b }

/-- The state of an instance right after mount: index 0, liveFollow true;
the channel effect runs after the first render, so the closure captures
liveFollow = true; channelRef.current is then set. -/
def initState (isPresenter : Bool) : ClientState :=
  { index := 0, liveFollow := true, capturedLiveFollow := true,
    isPresenter := isPresenter, hasChannel := true }

/-- The state-changing events a mounted instance reacts to. -/
inductive Event where
  | recvSlide : PayloadIndex → Event
  | presenceSync : List PresenceRecord → Event
  | goTo : Int → Event
  | next : Event
  | prev : Event
  | reSyncClick : Event
  | followToggle : Bool → Event
  deriving DecidableEq, Repr

/-- The state component of one step of the instance. -/
def step (slidesLen : Nat) (s : ClientState) : Event → ClientState
  | .recvSlide p => onSlideBroadcast slidesLen s p
  | .presenceSync rs => onPresenceSync slidesLen s rs
  | .goTo i => goAction slidesLen s i
  | .next => (nextAction slidesLen s).1
  | .prev => (prevAction slidesLen s).1
  | .reSyncClick => (reSync s).1
  | .followToggle b => setFollow s b

/-- JavaScript String.prototype.toLowerCase, restricted to the ASCII
range that the compared literals occupy: lowercase every character. -/
def jsToLower (s : String) : String :=
  ⟨s.data.map Char.toLower⟩

/-- isPresenter from the room page resolver:
typeof presenter !== "undefined" &&
["1", "true", "yes"].includes(String(presenter).toLowerCase()). -/
def isPresenterParam (presenter : Option String) : Bool :=
  match presenter with
  | none => false
  | some v => ["1", "true", "yes"].contains (jsToLower v)

/-- Claim C3: for every requested index i and slide list length, the
displayed index after any navigation action (next, previous, or go)
equals max(0, min(slideCount - 1, i)) where i is the requested target
index (index + 1 for next, index - 1 for prev, the argument for go). -/
theorem C3_navigation_clamped (n : Nat) (s : ClientState) (i : Int) :
    (goAction n s i).index = max 0 (min ((n : Int) - 1) i)
    ∧ (nextAction n s).1.index = max 0 (min ((n : Int) - 1) (s.index + 1))
    ∧ (prevAction n s).1.index = max 0 (min ((n : Int) - 1) (s.index - 1)) :=
  ⟨rfl, rfl, rfl⟩

/-- Claim C5: isPresenter is true iff the presenter query parameter is
present and its lowercased form is one of "1", "true", "yes"; an absent
parameter yields false; in particular "YES" yields true and "0" false. -/
theorem C5_presenter_param :
    isPresenterParam none = false
    ∧ (∀ v : String, isPresenterParam (some v) = true ↔
        (jsToLower v = "1" ∨ jsToLower v = "true" ∨ jsToLower v = "yes"))
    ∧ isPresenterParam (some "YES") = true
    ∧ isPresenterParam (some "0") = false := by
  refine ⟨rfl, ?_, by decide, by decide⟩
  intro v
  simp [isPresenterParam, List.contains]

/-- The seed of a left fold by max is bounded by the fold result. -/
theorem seed_le_foldl_max (x : Int) (xs : List Int) : x ≤ xs.foldl max x := by
  induction xs generalizing x with
  | nil => exact le_refl x
  | cons y ys ih => exact le_trans (le_max_left x y) (ih (max x y))

/-- Every list element is bounded by a left fold by max over the list. -/
theorem mem_le_foldl_max (a x : Int) (xs : List Int) (h : a ∈ xs) :
    a ≤ xs.foldl max x := by
  induction xs generalizing x with
  | nil => cases h
  | cons y ys ih =>
    rw [List.foldl_cons]
    rcases List.mem_cons.mp h with h1 | h1
    · subst h1
      exact le_trans (le_max_right x a) (seed_le_foldl_max (max x a) ys)
    · exact ih (max x y) h1

/-- A left fold by max over a list is the seed or one of the elements. -/
theorem foldl_max_mem (x : Int) (xs : List Int) : xs.foldl max x ∈ x :: xs := by
  induction xs generalizing x with
  | nil => exact List.mem_singleton.mpr rfl
  | cons y ys ih =>
    have h := ih (max x y)
    rw [List.foldl_cons]
    rcases List.mem_cons.mp h with h1 | h1
    · rcases max_choice x y with hc | hc
      · rw [h1, hc]; exact List.mem_cons_self _ _
      · rw [h1, hc]; exact List.mem_cons_of_mem x (List.mem_cons_self _ _)
    · exact List.mem_cons_of_mem x (List.mem_cons_of_mem y h1)

/-- Every element of a non-empty list is bounded by maxList. -/
theorem le_maxList (a : Int) (xs : List Int) (h : a ∈ xs) : a ≤ maxList xs := by
  cases xs with
  | nil => cases h
  | cons x ys =>
    rcases List.mem_cons.mp h with h1 | h1
    · exact h1 ▸ seed_le_foldl_max x ys
    · exact mem_le_foldl_max a x ys h1

/-- maxList of a non-empty list is one of its elements. -/
theorem maxList_mem (xs : List Int) (h : xs ≠ []) : maxList xs ∈ xs := by
  cases xs with
  | nil => exact absurd rfl h
  | cons x ys => exact foldl_max_mem x ys

/-- Clamping the index 0 yields 0 for every slide list length (for an
empty list, min gives -1 and the outer max returns 0). -/
theorem bound_zero (n : Nat) : bound n 0 = 0 := by
  unfold bound
  rcases le_or_lt ((n : Int) - 1) 0 with h | h
  · rw [min_eq_left h, max_eq_left h]
  · rw [min_eq_right h.le, max_self]

/-- When no presence record carries role "presenter", the presence target
is 0. -/
theorem presenceTarget_no_presenter (rs : List PresenceRecord)
    (h : rs.filter (fun p => p.role == "presenter") = []) :
    presenceTarget rs = 0 := by
  unfold presenceTarget
  rw [h]
  rfl

/-- Claim C1 counterexample: the claim that a mounted presenter never has
its index changed by an incoming slide-change broadcast is false.  In the
state right after mount (index 0, the closure-captured liveFollow still
true), a presenter instance in a 5-slide room that receives a slide
broadcast with index 3 moves to index 3: the handler has no presenter
guard. -/
theorem C1_counterexample :
    (initState true).isPresenter = true
    ∧ (initState true).index = 0
    ∧ (onSlideBroadcast 5 (initState true) (PayloadIndex.numeric 3)).index = 3
    ∧ (3 : Int) ≠ 0 :=
  ⟨rfl, rfl, by decide, by decide⟩

/-- Claim C1 amended: the broadcast "slide" handler has no presenter
guard; an instance with isPresenter = true applies an incoming numeric
slide broadcast exactly like a following viewer, whenever the
closure-captured follow-live flag is true: its index becomes the clamped
payload index. -/
theorem C1_presenter_applies_broadcast (n : Nat) (s : ClientState) (k : Int)
    (_hp : s.isPresenter = true) (hc : s.capturedLiveFollow = true) :
    (onSlideBroadcast n s (PayloadIndex.numeric k)).index = bound n k := by
  simp [onSlideBroadcast, hc, PayloadIndex.toNumber]

/-- Witness for C1 amended at the mount state of a presenter. -/
theorem C1_presenter_applies_broadcast_witness :
    (initState true).isPresenter = true
    ∧ (initState true).capturedLiveFollow = true
    ∧ (onSlideBroadcast 5 (initState true) (PayloadIndex.numeric 3)).index
        = bound 5 3 :=
  ⟨rfl, rfl, C1_presenter_applies_broadcast 5 (initState true) 3 rfl rfl⟩

/-- Claim C2, evaluated at its failing input: a viewer that has toggled
follow-live to false still applies an incoming slide broadcast, because
the handler installed by the channel effect reads the stale
closure-captured flag (true since mount) rather than the current value;
from index 0 the index becomes 2, where the claim requires it to stay
0. -/
theorem C2_stale_follow_bug :
    (setFollow (initState false) false).liveFollow = false
    ∧ (setFollow (initState false) false).isPresenter = false
    ∧ (onSlideBroadcast 5 (setFollow (initState false) false)
        (PayloadIndex.numeric 2)).index = 2
    ∧ (2 : Int) ≠ 0 :=
  ⟨rfl, rfl, by decide, by decide⟩

/-- Claim C4: on a presence-sync event a non-presenter sets its index to
the bounded presence target, which is the maximum of the indices reported
by records tagged "presenter" (an upper bound of them all and itself one
of them) and 0 when no such record exists; presenter indices 2, 5, 1
resolve to 5 and an empty record set resolves to 0. -/
theorem C4_presence_sync_max (n : Nat) (s : ClientState)
    (rs : List PresenceRecord) (h : s.isPresenter = false) :
    (onPresenceSync n s rs).index = bound n (presenceTarget rs)
    ∧ (∀ r ∈ rs.filter (fun p => p.role == "presenter"),
        r.index.getD 0 ≤ presenceTarget rs)
    ∧ (rs.filter (fun p => p.role == "presenter") ≠ [] →
        presenceTarget rs ∈
          (rs.filter (fun p => p.role == "presenter")).map
            (fun p => p.index.getD 0))
    ∧ presenceTarget
        [{ role := "presenter", index := some 2 },
         { role := "presenter", index := some 5 },
         { role := "presenter", index := some 1 }] = 5
    ∧ presenceTarget [] = 0 := by
  refine ⟨by simp [onPresenceSync, h], ?_, ?_, by decide, by decide⟩
  · intro r hr
    have hne : rs.filter (fun p => p.role == "presenter") ≠ [] := by
      intro hnil
      rw [hnil] at hr
      cases hr
    unfold presenceTarget
    rw [if_pos (List.length_pos.mpr hne)]
    exact le_maxList _ _ (List.mem_map_of_mem _ hr)
  · intro hne
    unfold presenceTarget
    rw [if_pos (List.length_pos.mpr hne)]
    exact maxList_mem _ (by simpa using hne)

/-- Witness for C4 at a freshly mounted viewer and the presence set from
the specification example: the index resolves to 5. -/
theorem C4_presence_sync_max_witness :
    (onPresenceSync 6 (initState false)
        [{ role := "presenter", index := some 2 },
         { role := "presenter", index := some 5 },
         { role := "presenter", index := some 1 }]).index = 5 := by
  have h := (C4_presence_sync_max 6 (initState false)
      [{ role := "presenter", index := some 2 },
       { role := "presenter", index := some 5 },
       { role := "presenter", index := some 1 }] rfl).1
  rw [h]
  decide

/-- Claim C6 counterexample: the claim that a non-numeric payload makes
the index become 0 is false.  A following viewer at index 2 receiving a
slide broadcast whose index field parses to NaN keeps index 2: the NaN
guard skips the update instead of applying 0. -/
theorem C6_counterexample :
    (onSlideBroadcast 5
        { index := 2, liveFollow := true, capturedLiveFollow := true,
          isPresenter := false, hasChannel := true }
        PayloadIndex.nonNumeric).index = 2
    ∧ (2 : Int) ≠ 0 :=
  ⟨by decide, by decide⟩

/-- Claim C6 amended: for a recipient whose captured follow-live flag is
true, a payload index that parses to NaN leaves the index unchanged (the
NaN guard skips the update), while an absent (undefined or null) index
field is coerced to 0 by the nullish default and applied, making the
index bound(0) = 0. -/
theorem C6_nan_guard (n : Nat) (s : ClientState)
    (hc : s.capturedLiveFollow = true) :
    (onSlideBroadcast n s PayloadIndex.nonNumeric).index = s.index
    ∧ (onSlideBroadcast n s PayloadIndex.missing).index = 0 := by
  constructor
  · simp [onSlideBroadcast, hc, PayloadIndex.toNumber]
  · simp [onSlideBroadcast, hc, PayloadIndex.toNumber, bound_zero]

/-- Witness for C6 amended at a following viewer on index 2. -/
theorem C6_nan_guard_witness :
    (onSlideBroadcast 5
        { index := 2, liveFollow := true, capturedLiveFollow := true,
          isPresenter := false, hasChannel := true }
        PayloadIndex.nonNumeric).index = 2
    ∧ (onSlideBroadcast 5
        { index := 2, liveFollow := true, capturedLiveFollow := true,
          isPresenter := false, hasChannel := true }
        PayloadIndex.missing).index = 0 :=
  C6_nan_guard 5
    { index := 2, liveFollow := true, capturedLiveFollow := true,
      isPresenter := false, hasChannel := true } rfl

/-- Claim C7: reSync sets the follow-live flag to true and re-tracks the
own presence record with the current role and index; the local index is
unchanged and no other channel effect (in particular no broadcast and no
fetch of the presenter index) is produced. -/
theorem C7_reSync_effect (s : ClientState) (h : s.hasChannel = true) :
    (reSync s).1.index = s.index
    ∧ (reSync s).1.liveFollow = true
    ∧ (reSync s).1.isPresenter = s.isPresenter
    ∧ (reSync s).2 = [Output.trackPresence (roleString s.isPresenter) s.index] := by
  refine ⟨rfl, rfl, rfl, ?_⟩
  simp [reSync, h]

/-- Witness for C7 at a non-following viewer sitting on index 2. -/
theorem C7_reSync_effect_witness :
    (reSync
        { index := 2, liveFollow := false, capturedLiveFollow := true,
          isPresenter := false, hasChannel := true }).1.index = 2
    ∧ (reSync
        { index := 2, liveFollow := false, capturedLiveFollow := true,
          isPresenter := false, hasChannel := true }).1.liveFollow = true
    ∧ (reSync
        { index := 2, liveFollow := false, capturedLiveFollow := true,
          isPresenter := false, hasChannel := true }).1.isPresenter = false
    ∧ (reSync
        { index := 2, liveFollow := false, capturedLiveFollow := true,
          isPresenter := false, hasChannel := true }).2
        = [Output.trackPresence (roleString false) 2] :=
  C7_reSync_effect
    { index := 2, liveFollow := false, capturedLiveFollow := true,
      isPresenter := false, hasChannel := true } rfl

/-- Claim C8: a non-presenter navigation (next or prev) updates the local
index to the clamped target but emits no channel output at all, while a
presenter navigation (with the channel handle set) emits exactly one
broadcast carrying the new clamped index. -/
theorem C8_viewer_nav_never_broadcasts (n : Nat) (s : ClientState) :
    (s.isPresenter = false →
      (nextAction n s).2 = []
      ∧ (prevAction n s).2 = []
      ∧ (nextAction n s).1.index = bound n (s.index + 1)
      ∧ (prevAction n s).1.index = bound n (s.index - 1))
    ∧ (s.isPresenter = true → s.hasChannel = true →
      (nextAction n s).2 = [Output.broadcastSlide (bound n (s.index + 1))]
      ∧ (prevAction n s).2 = [Output.broadcastSlide (bound n (s.index - 1))]) := by
  constructor
  · intro h
    refine ⟨?_, ?_, rfl, rfl⟩ <;> simp [nextAction, prevAction, h]
  · intro h hc
    constructor <;> simp [nextAction, prevAction, broadcastOut, h, hc]

/-- Witness for C8: a freshly mounted viewer emits nothing on next, a
freshly mounted presenter emits one broadcast of the new index. -/
theorem C8_viewer_nav_never_broadcasts_witness :
    (nextAction 4 (initState false)).2 = []
    ∧ (nextAction 4 (initState true)).2
        = [Output.broadcastSlide (bound 4 ((initState true).index + 1))] :=
  ⟨((C8_viewer_nav_never_broadcasts 4 (initState false)).1 rfl).1,
   ((C8_viewer_nav_never_broadcasts 4 (initState true)).2 rfl rfl).1⟩

/-- Claim C9: for a non-empty slide list the index invariant
0 ≤ index ≤ slideCount - 1 holds at mount (index 0) and is preserved by
every state-changing event: incoming broadcast, presence sync, go, next,
prev, re-sync, and the follow-live toggle. -/
theorem C9_index_invariant (n : Nat) (s : ClientState) (e : Event)
    (hn : 1 ≤ n) (h0 : 0 ≤ s.index) (h1 : s.index ≤ (n : Int) - 1) :
    (0 ≤ (initState s.isPresenter).index
      ∧ (initState s.isPresenter).index ≤ (n : Int) - 1)
    ∧ (0 ≤ (step n s e).index ∧ (step n s e).index ≤ (n : Int) - 1) := by
  have hn' : (1 : Int) ≤ (n : Int) := by exact_mod_cast hn
  have hb : ∀ i : Int, 0 ≤ bound n i ∧ bound n i ≤ (n : Int) - 1 := by
    intro i
    exact ⟨le_max_left 0 _, max_le (by omega) (min_le_left _ _)⟩
  refine ⟨⟨le_refl 0, by simp [initState]; omega⟩, ?_⟩
  cases e with
  | recvSlide p =>
    show 0 ≤ (onSlideBroadcast n s p).index
        ∧ (onSlideBroadcast n s p).index ≤ (n : Int) - 1
    unfold onSlideBroadcast
    cases hcl : s.capturedLiveFollow with
    | false => simpa using ⟨h0, h1⟩
    | true =>
      cases p with
      | missing => simpa [PayloadIndex.toNumber] using hb 0
      | numeric k => simpa [PayloadIndex.toNumber] using hb k
      | nonNumeric => simpa [PayloadIndex.toNumber] using ⟨h0, h1⟩
  | presenceSync rs =>
    show 0 ≤ (onPresenceSync n s rs).index
        ∧ (onPresenceSync n s rs).index ≤ (n : Int) - 1
    unfold onPresenceSync
    cases hp : s.isPresenter with
    | true => simpa using ⟨h0, h1⟩
    | false => simpa using hb (presenceTarget rs)
  | goTo i => exact hb i
  | next => exact hb (s.index + 1)
  | prev => exact hb (s.index - 1)
  | reSyncClick => exact ⟨h0, h1⟩
  | followToggle b => exact ⟨h0, h1⟩

/-- Witness for C9: three slides, mounted viewer, a next click. -/
theorem C9_index_invariant_witness :
    (0 ≤ (initState (initState false).isPresenter).index
      ∧ (initState (initState false).isPresenter).index ≤ (3 : Int) - 1)
    ∧ (0 ≤ (step 3 (initState false) Event.next).index
      ∧ (step 3 (initState false) Event.next).index ≤ (3 : Int) - 1) :=
  C9_index_invariant 3 (initState false) Event.next (by decide) (by decide)
    (by decide)

/-- Claim C10: the presence-sync reconciliation of a non-presenter is
applied for every combination of the follow-live flag and its captured
copy — even a viewer with follow-live = false has its index overwritten
with the bounded presence target, and reset to 0 whenever no presenter
record is present. -/
theorem C10_presence_ignores_follow (n : Nat) (s : ClientState)
    (rs : List PresenceRecord) (h : s.isPresenter = false) :
    (∀ b b' : Bool,
      (onPresenceSync n
          { s with liveFollow := b, capturedLiveFollow := b' } rs).index
        = bound n (presenceTarget rs))
    ∧ (rs.filter (fun p => p.role == "presenter") = [] →
        ∀ b b' : Bool,
          (onPresenceSync n
              { s with liveFollow := b, capturedLiveFollow := b' } rs).index
            = 0) := by
  constructor
  · intro b b'
    simp [onPresenceSync, h]
  · intro hnil b b'
    simp [onPresenceSync, h, presenceTarget_no_presenter rs hnil, bound_zero]

/-- Witness for C10: a non-following viewer on index 2 in a 3-slide room
is reset to 0 by a presence sync that reports no presenter. -/
theorem C10_presence_ignores_follow_witness :
    (onPresenceSync 3
        { index := 2, liveFollow := false, capturedLiveFollow := false,
          isPresenter := false, hasChannel := true }
        ([] : List PresenceRecord)).index = 0 :=
  (C10_presence_ignores_follow 3
      { index := 2, liveFollow := true, capturedLiveFollow := true,
        isPresenter := false, hasChannel := true }
      [] rfl).2 rfl false false

end LiveSlides
